import Mathlib

/-!
# AetherPay core decision logic: a shallow embedding

This file embeds, in Lean 4, the decision components of the AetherPay
repository and settles the specification claims about them:

* `src/oracle/realtime_price_fetcher.py` — multi-source price aggregation
  (`RealtimePriceFetcher.aggregate_prices`, `validate_price`);
* `src/models/aetherpay_predictor.py` — the 30-second prediction strategy
  selector (`AetherPayPredictor.predict_30s` and its branch helpers);
* `src/oracle/dex_path_optimizer.py` — the settlement path optimizer
  (`PathOptimizer.calculate_path_score`, `get_optimal_path`, `main`).

Modelling conventions:

* Python floats are modelled as exact rationals (`ℚ`); the analysis concerns
  the algebraic structure of the computations, not binary rounding.
  The purely presentational `round(x, k)` calls applied when the aggregator
  serialises its result dictionary (`round(aggregated_price, 8)`,
  `round(confidence, 3)`, `round(spread, 4)`) are omitted: every claim cites
  the computation lines, not the serialisation lines.
* Network fetches, the SQLite fallback and `datetime.now()` are not
  modelled; functions that consume their results take those results as
  explicit parameters (e.g. the list of accepted source prices, the random
  jitter drawn by `random.uniform`, the model-inference outcome).
* Python dictionaries of fixed shape become structures; `None`-returning
  functions return `Option`; raised-and-caught errors become `Except`.
-/

namespace AetherPay

/-! ## Price aggregation (`src/oracle/realtime_price_fetcher.py`) -/

/-- `RealtimePriceFetcher.reference_prices` (constructor, lines 28–37). -/
def referencePriceTable : List (String × ℚ) :=
  [("BTC/USDT", 123000), ("ETH/USDT", 3900), ("SOL/USDT", 250),
   ("ADA/USDT", 19/20), ("BNB/USDT", 1000),
   ("EUR/USD", 109/100), ("GBP/USD", 131/100), ("CNY/USD", 7/50)]

/-- `self.reference_prices.get(symbol)` as an optional lookup. -/
def referencePrices (symbol : String) : Option ℚ :=
  referencePriceTable.lookup symbol

/-- `RealtimePriceFetcher.validate_price`: accept a price iff its relative
deviation from the reference price is at most `max_deviation = 0.2`;
a symbol without a reference price accepts any price. -/
def validate_price (symbol : String) (price : ℚ) : Bool :=
  match referencePrices symbol with
  | none => true
  | some r => decide (|price - r| / r ≤ 1/5)

/-- The source-collection loop of `aggregate_prices` (lines 198–210): from the
per-source fetch results, keep the prices that are present, positive
(`if price and price > 0`) and pass `validate_price`. -/
def acceptedPrices (symbol : String) (fetched : List (Option ℚ)) : List ℚ :=
  (fetched.filterMap id).filter (fun p => decide (0 < p) && validate_price symbol p)

/-- The fiat pairs special-cased at the top of `aggregate_prices` (line 184). -/
def fiatAggPairs : List String := ["EUR/USD", "GBP/USD", "CNY/USD"]

/-- `RealtimePriceFetcher.fetch_forex_rates`: fixed rates for the three fiat
pairs, `None` otherwise. -/
def fetch_forex_rates (symbol : String) : Option ℚ :=
  if symbol = "EUR/USD" then some (109/100)
  else if symbol = "GBP/USD" then some (131/100)
  else if symbol = "CNY/USD" then some (7/50)
  else none

/-- Ascending sort, modelling Python's `sorted(prices)` on a price list. -/
def sortQ (l : List ℚ) : List ℚ :=
  List.insertionSort (fun a b => a ≤ b) l

/-- `statistics.median`: sort, then take the middle element (odd length) or
the average of the two middle elements (even length).  `statistics.median`
raises on the empty list; the code only applies it to nonempty lists, and the
model returns `0` there. -/
def median (l : List ℚ) : ℚ :=
  let s := sortQ l
  let n := s.length
  if n % 2 = 1 then s.getD (n / 2) 0
  else (s.getD (n / 2 - 1) 0 + s.getD (n / 2) 0) / 2

/-- `prices_sorted[1:-1]`: the sorted prices with the single lowest and the
single highest entry removed (lines 228–229). -/
def trimmedPrices (l : List ℚ) : List ℚ :=
  ((sortQ l).drop 1).dropLast

/-- The aggregated-price computation of `aggregate_prices` (lines 225–234):
`len >= 3` → median of the sorted list with extremes dropped; `len >= 2` →
median; otherwise `prices[0]`. -/
def aggregatedOf (prices : List ℚ) : ℚ :=
  if 3 ≤ prices.length then median (trimmedPrices prices)
  else if 2 ≤ prices.length then median prices
  else prices.headD 0

/-- Python's `max(prices)` (total on `[]`, where the code never calls it). -/
def maxOf (l : List ℚ) : ℚ := l.foldl max (l.headD 0)

/-- Python's `min(prices)`. -/
def minOf (l : List ℚ) : ℚ := l.foldl min (l.headD 0)

/-- The spread computation of `aggregate_prices` (lines 237–241). -/
def spreadOf (prices : List ℚ) : ℚ :=
  if 1 < prices.length then (maxOf prices - minOf prices) / aggregatedOf prices
  else 1/1000

/-- The confidence computation of `aggregate_prices` (lines 237–242):
`max(0.5, min(1.0, 1.0 - spread * 10))` for more than one price, else `0.7`. -/
def confidenceOf (prices : List ℚ) : ℚ :=
  if 1 < prices.length then max (1/2) (min 1 (1 - spreadOf prices * 10))
  else 7/10

/-- The result dictionary built by `aggregate_prices` (lines 244–254), minus
the fields the claims never mention (`sources`, `timestamp`,
`reference_price`). -/
structure AggResult where
  pair : String
  aggregated_price : ℚ
  source_count : ℕ
  confidence : ℚ
  spread : ℚ
  is_simulated : Bool
deriving Repr, DecidableEq

/-- `RealtimePriceFetcher.aggregate_prices` (lines 178–254).

* `accepted` is the list of source prices that survived the collection loop
  (see `acceptedPrices`); the network fan-out itself is not modelled.
* `jitter` is the value drawn by `random.uniform(-0.005, 0.005)` in the
  zero-source simulation branch (line 217), passed in explicitly.

Fiat pairs return early with the fixed forex rate (`confidence 0.99`,
`spread 0.001`); with zero accepted prices and a configured reference price
the function simulates a single price `reference * (1 + jitter)` and flags
the result (`'reference' in source_results` ⇒ `is_simulated`); with zero
accepted prices and no reference price it returns `None` (line 222–223). -/
def aggregate_prices (symbol : String) (accepted : List ℚ) (jitter : ℚ) :
    Option AggResult :=
  match (if symbol ∈ fiatAggPairs then fetch_forex_rates symbol else none) with
  | some fr => some ⟨symbol, fr, 1, 99/100, 1/1000, false⟩
  | none =>
    let step : List ℚ × Bool :=
      if accepted.isEmpty then
        match referencePrices symbol with
        | some r => ([r * (1 + jitter)], true)
        | none => ([], false)
      else (accepted, false)
    if step.1.isEmpty then none
    else
      some ⟨symbol, aggregatedOf step.1, step.1.length,
            confidenceOf step.1, spreadOf step.1, step.2⟩

/-! ## Prediction strategy selector (`src/models/aetherpay_predictor.py`) -/

/-- Bool test that `pat` is an initial segment of the second list
(used to model substring search in Python's `str.replace`). -/
def charsMatch : List Char → List Char → Bool
  | [], _ => true
  | _ :: _, [] => false
  | p :: ps, c :: cs => p == c && charsMatch ps cs

/-- Fuel-indexed worker for `replaceStr`: scan left to right, replacing each
non-overlapping occurrence of `pat` by `rep`, exactly as Python's
`str.replace` does for a nonempty pattern.  The fuel (initially the string
length) only makes the recursion structural; it never runs out because each
step consumes at least one character. -/
def replaceFuel (pat rep : List Char) : ℕ → List Char → List Char
  | _, [] => []
  | 0, s => s
  | fuel + 1, c :: rest =>
    if pat ≠ [] ∧ charsMatch pat (c :: rest) then
      rep ++ replaceFuel pat rep fuel ((c :: rest).drop pat.length)
    else c :: replaceFuel pat rep fuel rest

/-- Python's `s.replace(pat, rep)` for a nonempty pattern. -/
def replaceStr (s pat rep : String) : String :=
  ⟨replaceFuel pat.data rep.data s.data.length s.data⟩

/-- The wrapped-token mapping applied at the top of `predict_30s` (line 64)
and of `OraclePredictor.predict` (line 113):
`pair.replace('WETH', 'ETH').replace('WBTC', 'BTC')`. -/
def mapWrapped (pair : String) : String :=
  replaceStr (replaceStr pair "WETH" "ETH") "WBTC" "BTC"

/-- `AetherPayPredictor.stable_pairs` (constructor, lines 39–42). -/
def stablePairsP : List String :=
  ["USDC/USDT", "USDT/USDC", "DAI/USDT", "USDT/DAI", "DAI/USDC", "USDC/DAI"]

/-- `AetherPayPredictor.fiat_pairs` (constructor, lines 45–48). -/
def fiatPairsP : List String :=
  ["CNY/USD", "EUR/USD", "JPY/USD", "GBP/USD", "KRW/USD", "HKD/USD",
   "SGD/USD", "AUD/USD", "CAD/USD"]

/-- `AetherPayPredictor.model_quality` with the `.get(pair, 0.3)` default
(lines 30–36 and 76). -/
def modelQuality (pair : String) : ℚ :=
  (([("BTC/USDT", 618/1000), ("ETH/USDT", 135/1000), ("SOL/USDT", 4/10),
     ("ADA/USDT", 4/10), ("BNB/USDT", 4/10)] : List (String × ℚ)).lookup
    pair).getD (3/10)

/-- The quote-decision dictionary produced by `predict_30s` and its branch
helpers, minus fields no claim mentions (`prediction_horizon`, `timestamp`,
`optimal_settlement_path`).  The high-quality branch passes through the
oracle result, which carries no `model_quality`/`strategy` keys, hence the
`Option`. -/
structure QuoteDecision where
  pair : String
  current_price : ℚ
  predicted_price : ℚ
  price_change : ℚ
  confidence : ℚ
  meets_threshold : Bool
  model_quality : Option String
  strategy : Option String
deriving Repr, DecidableEq

/-- `AetherPayPredictor._stable_coin_response` (lines 162–185): a fixed 1:1
decision. -/
def stableCoinResponse (pair : String) : QuoteDecision :=
  { pair := pair, current_price := 1, predicted_price := 1, price_change := 0,
    confidence := 1, meets_threshold := true, model_quality := some "perfect",
    strategy := some "hardcoded_stable" }

/-- The `default_rates` fallback of `_fiat_currency_response`
(lines 193–199), with its `.get(pair, 1.0)` default. -/
def fiatDefaultRates (pair : String) : ℚ :=
  (([("CNY/USD", 7/50), ("EUR/USD", 27/25), ("JPY/USD", 67/10000),
     ("GBP/USD", 63/50)] : List (String × ℚ)).lookup pair).getD 1

/-- `AetherPayPredictor._fiat_currency_response` (lines 187–222); `latest` is
the value returned by `self._get_latest_price(pair)`. -/
def fiatCurrencyResponse (pair : String) (latest : ℚ) : QuoteDecision :=
  let current := if latest = 0 then fiatDefaultRates pair else latest
  { pair := pair, current_price := current, predicted_price := current,
    price_change := 0, confidence := 19/20, meets_threshold := true,
    model_quality := some "no_model", strategy := some "latest_rate_only" }

/-- An `OraclePredictor.predict` outcome for a non-stablecoin pair: `none`
models any of its error dictionaries (`prediction_unavailable`, `no_data`,
`prediction_failed`), and `some (pred, cur, conf)` models a success with
`predicted_price = pred`, `current_price = cur`, `confidence = conf`
(its `meets_threshold` is `conf >= confidence_threshold`,
`oracle_predictor.py` line 232). -/
def OracleOutcome : Type := Option (ℚ × ℚ × ℚ)

/-- `AetherPayPredictor._low_quality_prediction` (lines 123–160); `latest`
models `self._get_latest_price(pair)` and `oracle` the
`self.oracle.predict(pair, confidence_threshold)` call. -/
def lowQualityPrediction (pair : String) (latest : ℚ) (oracle : OracleOutcome)
    (threshold : ℚ) : QuoteDecision :=
  match oracle with
  | none =>
    { pair := pair, current_price := latest, predicted_price := latest,
      price_change := 0, confidence := 7/10,
      meets_threshold := decide ((7/10 : ℚ) ≥ threshold),
      model_quality := some "low", strategy := some "conservative_weighted" }
  | some (pred, _, oconf) =>
    let predicted := latest * (7/10) + pred * (3/10)
    let conf := max (3/5) (oconf * (17/20))
    { pair := pair, current_price := latest, predicted_price := predicted,
      price_change := predicted - latest, confidence := conf,
      meets_threshold := decide (conf ≥ threshold),
      model_quality := some "low", strategy := some "conservative_weighted" }

/-- `AetherPayPredictor._high_quality_prediction` (lines 99–121): on an
oracle error the error dictionary is returned unchanged; on success the
oracle result is rescaled to the 30-second horizon
(`adjusted_change = (predicted - current) * 0.001`) while `confidence` and
`meets_threshold` are passed through from the oracle. -/
def highQualityPrediction (pair : String) (oracle : OracleOutcome)
    (threshold : ℚ) : Except String QuoteDecision :=
  match oracle with
  | none => Except.error "prediction_unavailable"
  | some (pred, cur, conf) =>
    let adjusted_change := (pred - cur) * (1/1000)
    Except.ok
      { pair := pair, current_price := cur,
        predicted_price := cur + adjusted_change,
        price_change := adjusted_change, confidence := conf,
        meets_threshold := decide (conf ≥ threshold),
        model_quality := none, strategy := none }

/-- `AetherPayPredictor.predict_30s` (lines 50–97).  `latest` models
`self._get_latest_price(...)`; `oracle` models the outcome of
`self.oracle.predict(...)`.  `amount` only influences the
`optimal_settlement_path` sub-dictionary, which no claim mentions and which
is not part of `QuoteDecision`; the parameter is kept for interface
fidelity.  The branch helpers receive the original (unmapped) pair name,
matching the `original_pair` bookkeeping in the code. -/
def predict_30s (pair : String) (amount threshold latest : ℚ)
    (oracle : OracleOutcome) : Except String QuoteDecision :=
  let p := mapWrapped pair
  if p ∈ stablePairsP then Except.ok (stableCoinResponse pair)
  else if p ∈ fiatPairsP then Except.ok (fiatCurrencyResponse pair latest)
  else if modelQuality p > 1/2 then highQualityPrediction pair oracle threshold
  else Except.ok (lowQualityPrediction pair latest oracle threshold)

/-! ## Settlement path optimizer (`src/oracle/dex_path_optimizer.py`) -/

/-- One entry of `PathOptimizer.settlement_paths` (constructor, lines 17–90).
`max_liquidity := none` models `float('inf')` (the `zk_batched` entry).
The free-text `reason` strings are not modelled. -/
structure PathInfo where
  name : String
  protocol : String
  base_cost_pct : ℚ
  base_time_seconds : ℕ
  reliability : ℚ
  min_liquidity : ℚ
  max_liquidity : Option ℚ
  risk_level : String
  best_for : String
deriving Repr, DecidableEq

/-- `PathOptimizer.settlement_paths`, in declaration order (which Python
dictionaries preserve), tagged with the declaration index used to express
the tie-break rule. -/
def settlementPaths : List (ℕ × PathInfo) :=
  [(0, { name := "FXPool Direct Swap", protocol := "FXPool",
         base_cost_pct := 6/1000, base_time_seconds := 12,
         reliability := 98/100, min_liquidity := 100,
         max_liquidity := some 1000000, risk_level := "low",
         best_for := "general" }),
   (1, { name := "Curve Finance", protocol := "Curve",
         base_cost_pct := 4/10000, base_time_seconds := 18,
         reliability := 99/100, min_liquidity := 10,
         max_liquidity := some 10000000, risk_level := "low",
         best_for := "stablecoin" }),
   (2, { name := "Uniswap V3", protocol := "Uniswap V3",
         base_cost_pct := 3/1000, base_time_seconds := 15,
         reliability := 95/100, min_liquidity := 50,
         max_liquidity := some 5000000, risk_level := "low",
         best_for := "crypto" }),
   (3, { name := "Direct L2 Settlement", protocol := "OP-Stack",
         base_cost_pct := 6/1000, base_time_seconds := 10,
         reliability := 99/100, min_liquidity := 1,
         max_liquidity := some 1000, risk_level := "low",
         best_for := "small_amount" }),
   (4, { name := "Batched zk-Relay", protocol := "zkSync Era",
         base_cost_pct := 8/1000, base_time_seconds := 45,
         reliability := 995/1000, min_liquidity := 10000,
         max_liquidity := none, risk_level := "very_low",
         best_for := "large_amount" }),
   (5, { name := "Optimistic Settlement", protocol := "Optimism",
         base_cost_pct := 65/10000, base_time_seconds := 25,
         reliability := 97/100, min_liquidity := 500,
         max_liquidity := some 50000, risk_level := "medium",
         best_for := "medium_amount" })]

/-- The stablecoin list of `PathOptimizer.is_stablecoin_pair` (line 94). -/
def optimizerStablecoins : List String := ["USDC", "USDT", "DAI", "BUSD", "USDD"]

/-- `PathOptimizer.is_stablecoin_pair` (lines 92–99): Python's
`token_a, token_b = pair.split('/')` raises unless the split has exactly two
parts, and the `except` turns that into `False`. -/
def is_stablecoin_pair (pair : String) : Bool :=
  match pair.splitOn "/" with
  | [a, b] => a ∈ optimizerStablecoins && b ∈ optimizerStablecoins
  | _ => false

/-- `PathOptimizer.is_crypto_pair` (lines 101–111): one side a crypto token,
the other a stablecoin (note this inner stablecoin list lacks `USDD`). -/
def is_crypto_pair (pair : String) : Bool :=
  let cryptos := ["BTC", "ETH", "SOL", "ADA", "BNB", "MATIC", "AVAX"]
  let stables := ["USDC", "USDT", "DAI", "BUSD"]
  match pair.splitOn "/" with
  | [a, b] => (a ∈ cryptos && b ∈ stables) || (b ∈ cryptos && a ∈ stables)
  | _ => false

/-- The pair-type classification at the top of `get_optimal_path`
(lines 195–200). -/
def pairTypeOf (pair : String) : String :=
  if is_stablecoin_pair pair then "stablecoin"
  else if is_crypto_pair pair then "crypto"
  else "other"

/-- The four scoring weights of `calculate_path_score`. -/
structure Weights where
  cost : ℚ
  speed : ℚ
  reliability : ℚ
  liquidity : ℚ
deriving Repr, DecidableEq

/-- The weight-selection logic of `calculate_path_score` (lines 152–167):
amount-dependent base weights, then the low-confidence adjustment
(`reliability += 0.2`, `cost -= 0.1`, `speed -= 0.1`). -/
def weightsFor (amount confidence : ℚ) : Weights :=
  let base : Weights :=
    if amount > 10000 then ⟨2/10, 1/10, 5/10, 2/10⟩
    else if amount < 1000 then ⟨3/10, 5/10, 1/10, 1/10⟩
    else ⟨4/10, 3/10, 2/10, 1/10⟩
  if confidence < 8/10 then
    ⟨base.cost - 1/10, base.speed - 1/10, base.reliability + 2/10,
     base.liquidity⟩
  else base

/-- `PathOptimizer.calculate_path_score` (lines 113–177). -/
def calculate_path_score (info : PathInfo) (amount confidence : ℚ)
    (pair_type : String) : ℚ :=
  let cost_score := 1 - min (info.base_cost_pct / (1/100)) 1
  let speed_score := 1 - min ((info.base_time_seconds : ℚ) / 60) 1
  let reliability_score := info.reliability
  let liquidity_score :=
    if amount < info.min_liquidity then 1/2
    else if (match info.max_liquidity with
             | some m => decide (amount > m)
             | none => false) then 3/10
    else 1
  let type_match_score :=
    if pair_type = "stablecoin" ∧ info.best_for = "stablecoin" then 12/10
    else if pair_type = "crypto" ∧ info.best_for = "crypto" then 12/10
    else 1
  let w := weightsFor amount confidence
  (w.cost * cost_score + w.speed * speed_score +
   w.reliability * reliability_score + w.liquidity * liquidity_score) *
    type_match_score

/-- The scored catalog built by the loop in `get_optimal_path`
(lines 203–206): `(score, declaration index, path info)` triples. -/
def scoredPaths (pair : String) (amount confidence : ℚ) :
    List (ℚ × ℕ × PathInfo) :=
  settlementPaths.map
    (fun e => (calculate_path_score e.2 amount confidence (pairTypeOf pair),
               e.1, e.2))

/-- The ranking order realised by `scored_paths.sort(reverse=True,
key=lambda x: x[0])` (line 209): score descending, and — because Python's
sort is stable and the catalog indices strictly increase — ties in
declaration-index ascending order. -/
def rankGE (a b : ℚ × ℕ × PathInfo) : Prop :=
  b.1 < a.1 ∨ (a.1 = b.1 ∧ a.2.1 ≤ b.2.1)

instance : DecidableRel rankGE := fun a b => by
  unfold rankGE; exact inferInstance

instance : IsTotal (ℚ × ℕ × PathInfo) rankGE where
  total a b := by
    unfold rankGE
    rcases lt_trichotomy a.1 b.1 with h | h | h
    · exact Or.inr (Or.inl h)
    · rcases le_total a.2.1 b.2.1 with hi | hi
      · exact Or.inl (Or.inr ⟨h, hi⟩)
      · exact Or.inr (Or.inr ⟨h.symm, hi⟩)
    · exact Or.inl (Or.inl h)

instance : IsTrans (ℚ × ℕ × PathInfo) rankGE where
  trans a b c hab hbc := by
    unfold rankGE at *
    rcases hab with hab | ⟨hab, hab2⟩
    · rcases hbc with hbc | ⟨hbc, _⟩
      · exact Or.inl (hbc.trans hab)
      · exact Or.inl (hbc ▸ hab)
    · rcases hbc with hbc | ⟨hbc, hbc2⟩
      · exact Or.inl (hab ▸ hbc)
      · exact Or.inr ⟨hab.trans hbc, hab2.trans hbc2⟩

/-- The sorted catalog of `get_optimal_path` (line 209): the unique
permutation of `scoredPaths` ordered by `rankGE`, realised here by
insertion sort. -/
def rankedPaths (pair : String) (amount confidence : ℚ) :
    List (ℚ × ℕ × PathInfo) :=
  List.insertionSort rankGE (scoredPaths pair amount confidence)

/-- The recommendation dictionary built by `get_optimal_path`
(lines 241–258), minus the free-text `reason`, the timestamp and the echoed
`optimization_factors` (only its `score` member, which a claim could touch,
is kept). -/
structure PathRecommendation where
  name : String
  protocol : String
  estimated_cost_pct : ℚ
  settlement_time_seconds : ℕ
  reliability : ℚ
  risk_level : String
  alternative_paths : List String
  score : ℚ
deriving Repr, DecidableEq

/-- `PathOptimizer.get_optimal_path` (lines 179–260).  The winner is the
head of the ranked list; the alternatives are the names of the next three
entries (`scored_paths[1:4]`); for `amount > 50000` the settlement time is
scaled by 1.5 and truncated to an integer (`int(adjusted_time * 1.5)`). -/
def get_optimal_path (pair : String) (amount confidence : ℚ) :
    Option PathRecommendation :=
  match rankedPaths pair amount confidence with
  | [] => none
  | best :: rest =>
    some { name := best.2.2.name, protocol := best.2.2.protocol,
           estimated_cost_pct := best.2.2.base_cost_pct,
           settlement_time_seconds :=
             if amount > 50000 then best.2.2.base_time_seconds * 3 / 2
             else best.2.2.base_time_seconds,
           reliability := best.2.2.reliability,
           risk_level := best.2.2.risk_level,
           alternative_paths := (rest.take 3).map (fun q => q.2.2.name),
           score := best.1 }

/-! ## Command-line entry points -/

/-- The argument validation and dispatch of `dex_path_optimizer.main`
(lines 289–334): non-positive amounts and out-of-range confidences are
rejected with a descriptive error before any path computation; the pair
string is never validated. -/
def optimizerMain (pair : String) (amount confidence : ℚ) :
    Except String PathRecommendation :=
  if amount ≤ 0 then Except.error "Invalid amount, must be > 0"
  else if ¬ (0 ≤ confidence ∧ confidence ≤ 1) then
    Except.error "Invalid confidence, must be between 0 and 1"
  else
    match get_optimal_path pair amount confidence with
    | some r => Except.ok r
    | none => Except.error "optimization_failed"

/-- The dispatch of `aetherpay_predictor.main` (lines 339–362): beyond an
arity check on `sys.argv` (an integration detail outside this model), it
performs no validation of `pair`, `amount` or `confidence_threshold` and
directly calls `predict_30s`. -/
def predictorMain (pair : String) (amount threshold latest : ℚ)
    (oracle : OracleOutcome) : Except String QuoteDecision :=
  predict_30s pair amount threshold latest oracle

/-! ## Shared lemmas about the aggregator -/

/-- Unfolding `aggregate_prices` for a non-fiat symbol with at least one
accepted price: the result record carries the computed aggregate,
confidence and spread, and is not simulated. -/
theorem aggregate_prices_eq_of_ne_nil (symbol : String) (accepted : List ℚ)
    (jitter : ℚ) (hf : symbol ∉ fiatAggPairs) (hne : accepted ≠ []) :
    aggregate_prices symbol accepted jitter =
      some ⟨symbol, aggregatedOf accepted, accepted.length,
            confidenceOf accepted, spreadOf accepted, false⟩ := by
  unfold aggregate_prices
  rw [if_neg hf]
  have h1 : accepted.isEmpty = false := by
    simpa [List.isEmpty_iff] using hne
  simp [h1]

/-- Unfolding `aggregate_prices` for a non-fiat symbol with no accepted
price but a configured reference price: a single simulated price
`r * (1 + jitter)` with fixed confidence `0.7` and spread `0.001`. -/
theorem aggregate_prices_empty_ref (symbol : String) (jitter r : ℚ)
    (hf : symbol ∉ fiatAggPairs) (hr : referencePrices symbol = some r) :
    aggregate_prices symbol [] jitter =
      some ⟨symbol, r * (1 + jitter), 1, 7/10, 1/1000, true⟩ := by
  unfold aggregate_prices
  rw [if_neg hf]
  simp [hr, aggregatedOf, confidenceOf, spreadOf]

/-- `statistics.median` of a two-element list is the average. -/
theorem median_pair (p q : ℚ) : median [p, q] = (p + q) / 2 := by
  by_cases h : p ≤ q
  · simp [median, sortQ, List.insertionSort, List.orderedInsert, h]
  · simp [median, sortQ, List.insertionSort, List.orderedInsert, h]
    ring

/-- Trimming removes exactly two elements (one lowest, one highest). -/
theorem trimmedPrices_length (l : List ℚ) :
    (trimmedPrices l).length = l.length - 2 := by
  simp [trimmedPrices, sortQ]
  omega

/-! ## Claim C1 -/

/-- C1: for a non-fiat pair with `n` accepted source prices, the aggregated
price is: for `n ≥ 3`, the median of the sorted prices with exactly one
lowest and one highest price removed (`trimmedPrices`); for `n = 2`, the
median (= average) of the two; for `n = 1`, that single price. -/
theorem c1_aggregated_price_median (symbol : String) (accepted : List ℚ)
    (jitter : ℚ) (hf : symbol ∉ fiatAggPairs) (hne : accepted ≠ []) :
    ∃ res, aggregate_prices symbol accepted jitter = some res ∧
      res.source_count = accepted.length ∧
      (3 ≤ accepted.length →
        res.aggregated_price = median (trimmedPrices accepted) ∧
        (trimmedPrices accepted).length = accepted.length - 2) ∧
      (∀ p q : ℚ, accepted = [p, q] →
        res.aggregated_price = (p + q) / 2) ∧
      (∀ p : ℚ, accepted = [p] → res.aggregated_price = p) := by
  refine ⟨_, aggregate_prices_eq_of_ne_nil symbol accepted jitter hf hne,
    rfl, ?_, ?_, ?_⟩
  · intro h3
    exact ⟨by simp [aggregatedOf, if_pos h3], trimmedPrices_length accepted⟩
  · rintro p q rfl
    show aggregatedOf [p, q] = (p + q) / 2
    have h : aggregatedOf [p, q] = median [p, q] := by simp [aggregatedOf]
    rw [h, median_pair]
  · rintro p rfl
    show aggregatedOf [p] = p
    simp [aggregatedOf]

/-- Witness for C1 at a concrete input: three accepted prices `[3, 1, 2]`. -/
theorem c1_witness :
    ∃ res, aggregate_prices "AAA/BBB" [3, 1, 2] 0 = some res ∧
      res.aggregated_price = median (trimmedPrices [3, 1, 2]) := by
  obtain ⟨res, h1, _, h3, _, _⟩ :=
    c1_aggregated_price_median "AAA/BBB" [3, 1, 2] 0 (by decide) (by decide)
  exact ⟨res, h1, (h3 (by decide)).1⟩

/-! ## Claim C2 -/

/-- C2: with at least two accepted prices the confidence equals
`clamp(1 - spread * 10, [0.5, 1.0])` with
`spread = (max - min) / aggregated price`, and it always lies in
`[0.5, 1.0]`.  (Determinism is inherent: the embedding is a pure function
of the accepted prices.) -/
theorem c2_confidence_clamp (symbol : String) (accepted : List ℚ)
    (jitter : ℚ) (hf : symbol ∉ fiatAggPairs) (h2 : 2 ≤ accepted.length) :
    ∃ res, aggregate_prices symbol accepted jitter = some res ∧
      res.confidence =
        max (1/2)
          (min 1
            (1 - (maxOf accepted - minOf accepted) / res.aggregated_price
              * 10)) ∧
      1/2 ≤ res.confidence ∧ res.confidence ≤ 1 := by
  have hne : accepted ≠ [] := by
    intro h
    rw [h] at h2
    simp at h2
  have hlen : 1 < accepted.length := h2
  refine ⟨_, aggregate_prices_eq_of_ne_nil symbol accepted jitter hf hne,
    ?_, ?_, ?_⟩
  · show confidenceOf accepted = _
    simp [confidenceOf, spreadOf, if_pos hlen]
  · show 1/2 ≤ confidenceOf accepted
    rw [confidenceOf, if_pos hlen]
    exact le_max_left _ _
  · show confidenceOf accepted ≤ 1
    rw [confidenceOf, if_pos hlen]
    exact max_le (by norm_num) (min_le_left _ _)

/-- Witness for C2 at a concrete input: accepted prices `[1, 3]`. -/
theorem c2_witness :
    ∃ res, aggregate_prices "AAA/BBB" [1, 3] 0 = some res ∧
      res.confidence =
        max (1/2)
          (min 1
            (1 - (maxOf [1, 3] - minOf [1, 3]) / res.aggregated_price
              * 10)) ∧
      1/2 ≤ res.confidence ∧ res.confidence ≤ 1 :=
  c2_confidence_clamp "AAA/BBB" [1, 3] 0 (by decide) (by decide)

/-! ## Claim C3 -/

/-- C3 counterexample: for a pair with no configured reference price
(`"DOGE/USDT"`) and zero accepted source prices, `aggregate_prices` returns
no quote at all (`None`), contradicting the claim that a quote is produced
for every pair. -/
theorem c3_counterexample : aggregate_prices "DOGE/USDT" [] 0 = none := by
  decide

/-- C3 as amended: for a non-fiat pair **with a configured reference
price**, zero accepted prices yield a simulated quote — reference price
with jitter of at most ±0.5%, `is_simulated = true`, confidence fixed at
0.7; for a non-fiat pair **without** a reference price, zero accepted
prices yield no quote (`None`, still without raising). -/
theorem c3_amended_simulated_quote (jitter : ℚ) (hj : |jitter| ≤ 1/200) :
    (∀ symbol r, symbol ∉ fiatAggPairs → referencePrices symbol = some r →
      0 < r →
      ∃ res, aggregate_prices symbol [] jitter = some res ∧
        res.aggregated_price = r * (1 + jitter) ∧
        |res.aggregated_price - r| ≤ (1/200) * r ∧
        res.is_simulated = true ∧ res.confidence = 7/10 ∧
        res.source_count = 1) ∧
    (∀ symbol, symbol ∉ fiatAggPairs → referencePrices symbol = none →
      aggregate_prices symbol [] jitter = none) := by
  constructor
  · intro symbol r hf hr hrpos
    refine ⟨_, aggregate_prices_empty_ref symbol jitter r hf hr,
      rfl, ?_, rfl, rfl, rfl⟩
    show |r * (1 + jitter) - r| ≤ (1/200) * r
    have h : r * (1 + jitter) - r = r * jitter := by ring
    rw [h, abs_mul, abs_of_pos hrpos]
    calc r * |jitter| ≤ r * (1/200) :=
          mul_le_mul_of_nonneg_left hj hrpos.le
      _ = (1/200) * r := by ring
  · intro symbol hf hr
    unfold aggregate_prices
    rw [if_neg hf]
    simp [hr]

/-- Witness for C3 (amended) at a concrete input: pair `"BTC/USDT"`
(reference 123000), jitter `0.001`. -/
theorem c3_witness :
    ∃ res, aggregate_prices "BTC/USDT" [] (1/1000) = some res ∧
      res.aggregated_price = 123000 * (1 + 1/1000) ∧
      res.is_simulated = true ∧ res.confidence = 7/10 := by
  obtain ⟨h1, _⟩ := c3_amended_simulated_quote (1/1000)
    (by rw [abs_of_pos (by norm_num : (0:ℚ) < 1/1000)]; norm_num)
  obtain ⟨res, ha, hb, _, hd, he, _⟩ :=
    h1 "BTC/USDT" 123000 (by decide) (by decide) (by norm_num)
  exact ⟨res, ha, hb, hd, he⟩

/-! ## Claim C4 -/

/-- C4: for every pair in the stablecoin set, `predict_30s` returns a
decision with current price 1.0, predicted price 1.0 and confidence 1.0,
for every amount, threshold, latest price and oracle outcome (the stablecoin
branch consults no source at all). -/
theorem c4_stablecoin_fixed (pair : String) (hp : pair ∈ stablePairsP)
    (amount threshold latest : ℚ) (oracle : OracleOutcome) :
    ∃ d, predict_30s pair amount threshold latest oracle = Except.ok d ∧
      d.current_price = 1 ∧ d.predicted_price = 1 ∧ d.confidence = 1 := by
  have hmap : mapWrapped pair = pair ∧ pair ∈ stablePairsP := by
    simp only [stablePairsP, List.mem_cons, List.not_mem_nil, or_false] at hp
    rcases hp with rfl | rfl | rfl | rfl | rfl | rfl <;>
      exact ⟨by decide, by decide⟩
  refine ⟨stableCoinResponse pair, ?_, rfl, rfl, rfl⟩
  unfold predict_30s
  rw [hmap.1, if_pos hmap.2]

/-- Witness for C4 at a concrete input: pair `"USDC/USDT"`. -/
theorem c4_witness :
    ∃ d, predict_30s "USDC/USDT" 1000 (19/20) 1 none = Except.ok d ∧
      d.current_price = 1 ∧ d.predicted_price = 1 ∧ d.confidence = 1 :=
  c4_stablecoin_fixed "USDC/USDT" (by decide) 1000 (19/20) 1 none

/-! ## Claim C5 -/

/-- C5: for a crypto/other pair of model quality ≤ 0.5, the decision blends
`0.7 × current + 0.3 × model-predicted` with confidence
`max(0.6, model confidence × 0.85)` when the model inference is available,
falls back to the current price with fixed confidence 0.7 when it is not,
and tags the conservative-weighted strategy in both cases. -/
theorem c5_low_quality_blend (pair : String)
    (amount threshold latest : ℚ) (oracle : OracleOutcome)
    (hs : mapWrapped pair ∉ stablePairsP)
    (hfp : mapWrapped pair ∉ fiatPairsP)
    (hq : modelQuality (mapWrapped pair) ≤ 1/2) :
    ∃ d, predict_30s pair amount threshold latest oracle = Except.ok d ∧
      d.current_price = latest ∧
      (∀ pred cur oconf, oracle = some (pred, cur, oconf) →
        d.predicted_price = (7/10) * latest + (3/10) * pred ∧
        d.confidence = max (3/5) (oconf * (17/20))) ∧
      (oracle = none →
        d.predicted_price = latest ∧ d.confidence = 7/10) ∧
      d.strategy = some "conservative_weighted" := by
  refine ⟨lowQualityPrediction pair latest oracle threshold, ?_, ?_, ?_, ?_, ?_⟩
  · unfold predict_30s
    rw [if_neg hs, if_neg hfp, if_neg (not_lt.mpr hq)]
  · cases oracle with
    | none => rfl
    | some v => rfl
  · rintro pred cur oconf rfl
    constructor
    · show latest * (7/10) + pred * (3/10) = (7/10) * latest + (3/10) * pred
      ring
    · rfl
  · rintro rfl
    exact ⟨rfl, rfl⟩
  · cases oracle with
    | none => rfl
    | some v => rfl

/-- Witness for C5 at a concrete input: pair `"SOL/USDT"` (quality 0.4),
with an available model inference `(pred, cur, conf) = (110, 100, 0.8)`. -/
theorem c5_witness :
    ∃ d, predict_30s "SOL/USDT" 1000 (19/20) 100 (some (110, 100, 8/10)) =
        Except.ok d ∧
      d.current_price = 100 ∧
      d.predicted_price = (7/10) * 100 + (3/10) * 110 ∧
      d.confidence = max (3/5) ((8/10) * (17/20)) ∧
      d.strategy = some "conservative_weighted" := by
  have hq : modelQuality (mapWrapped "SOL/USDT") ≤ 1/2 := by
    have h : mapWrapped "SOL/USDT" = "SOL/USDT" := by decide
    rw [h]
    simp only [modelQuality, List.lookup,
      show ("SOL/USDT" == "BTC/USDT") = false from by decide,
      show ("SOL/USDT" == "ETH/USDT") = false from by decide]
    norm_num
  obtain ⟨d, h1, h2, h3, _, h5⟩ :=
    c5_low_quality_blend "SOL/USDT" 1000 (19/20) 100 (some (110, 100, 8/10))
      (by decide) (by decide) hq
  obtain ⟨ha, hb⟩ := h3 110 100 (8/10) rfl
  exact ⟨d, h1, h2, ha, hb, h5⟩

/-! ## Claim C6 -/

/-- C6 counterexample: on the fiat branch `meets_threshold` is hardcoded
`True`: for pair `"EUR/USD"` with caller threshold `0.96` the returned
decision has `meets_threshold = true` while its confidence `0.95` is below
the threshold, so `meets_threshold ≠ (confidence ≥ threshold)`. -/
theorem c6_counterexample :
    ∃ d, predict_30s "EUR/USD" 1000 (96/100) (27/25) none = Except.ok d ∧
      d.meets_threshold = true ∧ ¬ (d.confidence ≥ 96/100) := by
  refine ⟨fiatCurrencyResponse "EUR/USD" (27/25), rfl, rfl, ?_⟩
  show ¬ ((19:ℚ)/20 ≥ 96/100)
  norm_num

/-- C6 as amended: on the high-quality and low-quality (crypto/other)
branches, `meets_threshold` equals `confidence ≥ threshold`; on the
stablecoin and fiat branches it is hardcoded `true` (with fixed confidences
1.0 and 0.95 respectively), so there it matches `confidence ≥ threshold`
only for thresholds ≤ 1.0 resp. ≤ 0.95. -/
theorem c6_meets_threshold_by_branch (pair : String)
    (amount threshold latest : ℚ) (oracle : OracleOutcome) :
    (mapWrapped pair ∉ stablePairsP → mapWrapped pair ∉ fiatPairsP →
      ∀ d, predict_30s pair amount threshold latest oracle = Except.ok d →
        d.meets_threshold = decide (d.confidence ≥ threshold)) ∧
    (mapWrapped pair ∈ stablePairsP →
      ∀ d, predict_30s pair amount threshold latest oracle = Except.ok d →
        d.meets_threshold = true ∧ d.confidence = 1) ∧
    (mapWrapped pair ∉ stablePairsP → mapWrapped pair ∈ fiatPairsP →
      ∀ d, predict_30s pair amount threshold latest oracle = Except.ok d →
        d.meets_threshold = true ∧ d.confidence = 19/20) := by
  refine ⟨?_, ?_, ?_⟩
  · intro hs hfp d hd
    unfold predict_30s at hd
    rw [if_neg hs, if_neg hfp] at hd
    by_cases hq : modelQuality (mapWrapped pair) > 1/2
    · rw [if_pos hq] at hd
      cases oracle with
      | none => exact absurd hd (by simp [highQualityPrediction])
      | some v =>
        obtain ⟨pred, cur, conf⟩ := v
        simp only [highQualityPrediction, Except.ok.injEq] at hd
        subst hd
        rfl
    · rw [if_neg hq] at hd
      cases oracle with
      | none =>
        simp only [lowQualityPrediction, Except.ok.injEq] at hd
        subst hd
        simp [ge_iff_le]
      | some v =>
        obtain ⟨pred, cur, conf⟩ := v
        simp only [lowQualityPrediction, Except.ok.injEq] at hd
        subst hd
        rfl
  · intro hs d hd
    unfold predict_30s at hd
    rw [if_pos hs] at hd
    simp only [Except.ok.injEq] at hd
    subst hd
    exact ⟨rfl, rfl⟩
  · intro hs hfp d hd
    unfold predict_30s at hd
    rw [if_neg hs, if_pos hfp] at hd
    simp only [Except.ok.injEq] at hd
    subst hd
    exact ⟨rfl, rfl⟩

/-- Witness for C6 (amended) at a concrete input: the low-quality pair
`"SOL/USDT"` with threshold `0.5` yields
`meets_threshold = (confidence ≥ 0.5)`. -/
theorem c6_witness :
    ∃ d, predict_30s "SOL/USDT" 1000 (1/2) 100 none = Except.ok d ∧
      d.meets_threshold = decide (d.confidence ≥ 1/2) := by
  have hq : modelQuality (mapWrapped "SOL/USDT") ≤ 1/2 := by
    have hm : mapWrapped "SOL/USDT" = "SOL/USDT" := by decide
    rw [hm]
    simp only [modelQuality, List.lookup,
      show ("SOL/USDT" == "BTC/USDT") = false from by decide,
      show ("SOL/USDT" == "ETH/USDT") = false from by decide]
    norm_num
  have heq : predict_30s "SOL/USDT" 1000 (1/2) 100 none =
      Except.ok (lowQualityPrediction "SOL/USDT" 100 none (1/2)) := by
    unfold predict_30s
    rw [if_neg (by decide), if_neg (by decide), if_neg (not_lt.mpr hq)]
  have h := (c6_meets_threshold_by_branch "SOL/USDT" 1000 (1/2) 100 none).1
    (by decide) (by decide)
  exact ⟨lowQualityPrediction "SOL/USDT" 100 none (1/2), heq, h _ heq⟩

/-! ## Claim C7 -/

/-- C7: the weights applied by `calculate_path_score` are exactly
`{cost 0.4, speed 0.3, reliability 0.2, liquidity 0.1}` in the base case,
`{0.2, 0.1, 0.5, 0.2}` for `amount > 10000`, `{0.3, 0.5, 0.1, 0.1}` for
`amount < 1000`, and when `confidence < 0.8` reliability additionally gains
`0.2` while cost and speed each lose `0.1` (the six resulting weight
vectors are spelled out). -/
theorem c7_weight_policy (amount confidence : ℚ) :
    (¬ confidence < 8/10 →
      (amount > 10000 →
        weightsFor amount confidence = ⟨2/10, 1/10, 5/10, 2/10⟩) ∧
      (¬ amount > 10000 → amount < 1000 →
        weightsFor amount confidence = ⟨3/10, 5/10, 1/10, 1/10⟩) ∧
      (¬ amount > 10000 → ¬ amount < 1000 →
        weightsFor amount confidence = ⟨4/10, 3/10, 2/10, 1/10⟩)) ∧
    (confidence < 8/10 →
      (amount > 10000 →
        weightsFor amount confidence =
          ⟨2/10 - 1/10, 1/10 - 1/10, 5/10 + 2/10, 2/10⟩) ∧
      (¬ amount > 10000 → amount < 1000 →
        weightsFor amount confidence =
          ⟨3/10 - 1/10, 5/10 - 1/10, 1/10 + 2/10, 1/10⟩) ∧
      (¬ amount > 10000 → ¬ amount < 1000 →
        weightsFor amount confidence =
          ⟨4/10 - 1/10, 3/10 - 1/10, 2/10 + 2/10, 1/10⟩)) := by
  unfold weightsFor
  constructor
  · intro hc
    refine ⟨fun h1 => ?_, fun h1 h2 => ?_, fun h1 h2 => ?_⟩
    · simp [h1, hc]
    · simp [h1, h2, hc]
    · simp [h1, h2, hc]
  · intro hc
    refine ⟨fun h1 => ?_, fun h1 h2 => ?_, fun h1 h2 => ?_⟩
    · simp [h1, hc]
    · simp [h1, h2, hc]
    · simp [h1, h2, hc]

/-- Witness for C7 at a concrete input: `amount = 20000`,
`confidence = 0.9` selects the large-order weights. -/
theorem c7_witness : weightsFor 20000 (9/10) = ⟨2/10, 1/10, 5/10, 2/10⟩ :=
  ((c7_weight_policy 20000 (9/10)).1 (by norm_num)).1 (by norm_num)

/-! ## Claim C10 -/

/-- C10: on every branch combination (three amount-dependent base weight
sets, with or without the low-confidence adjustment) the four weights used
by `calculate_path_score` sum to exactly 1 — proved here for **all**
amounts and confidences, which subsumes the claimed `amount > 0`,
`confidence ∈ [0, 1]` domain. -/
theorem c10_weights_sum_one (amount confidence : ℚ) :
    (weightsFor amount confidence).cost + (weightsFor amount confidence).speed +
      (weightsFor amount confidence).reliability +
      (weightsFor amount confidence).liquidity = 1 := by
  unfold weightsFor
  split_ifs <;> norm_num

/-! ## Claim C8 -/

/-- C8: `get_optimal_path` selects the catalog path with the highest score
— ties broken by catalog declaration order (the first-listed tied path
wins, i.e. the winner's declaration index is minimal among tied scores) —
and returns as alternatives exactly the names of the next three paths of
the ranking (score descending, ties by declaration order: the returned
ranking is sorted under `rankGE` and is a permutation of the scored
catalog, which pins it down uniquely since declaration indices are
distinct). -/
theorem c8_optimal_path_selection (pair : String) (amount confidence : ℚ) :
    ∃ best rest,
      rankedPaths pair amount confidence = best :: rest ∧
      get_optimal_path pair amount confidence =
        some { name := best.2.2.name, protocol := best.2.2.protocol,
               estimated_cost_pct := best.2.2.base_cost_pct,
               settlement_time_seconds :=
                 if amount > 50000 then best.2.2.base_time_seconds * 3 / 2
                 else best.2.2.base_time_seconds,
               reliability := best.2.2.reliability,
               risk_level := best.2.2.risk_level,
               alternative_paths := (rest.take 3).map (fun q => q.2.2.name),
               score := best.1 } ∧
      (∀ q ∈ scoredPaths pair amount confidence, q.1 ≤ best.1) ∧
      (∀ q ∈ scoredPaths pair amount confidence,
        q.1 = best.1 → best.2.1 ≤ q.2.1) ∧
      List.Sorted rankGE (best :: rest) ∧
      (best :: rest).Perm (scoredPaths pair amount confidence) := by
  have hperm : (rankedPaths pair amount confidence).Perm
      (scoredPaths pair amount confidence) :=
    List.perm_insertionSort rankGE _
  have hsorted : List.Sorted rankGE (rankedPaths pair amount confidence) :=
    List.sorted_insertionSort rankGE _
  have hlen : (rankedPaths pair amount confidence).length = 6 := by
    rw [hperm.length_eq]
    simp [scoredPaths, settlementPaths]
  obtain ⟨best, rest, hbr⟩ :
      ∃ b r, rankedPaths pair amount confidence = b :: r := by
    cases hr : rankedPaths pair amount confidence with
    | nil => rw [hr] at hlen; simp at hlen
    | cons b r => exact ⟨b, r, rfl⟩
  rw [hbr] at hperm hsorted
  have hmem : ∀ q ∈ scoredPaths pair amount confidence,
      q = best ∨ q ∈ rest := by
    intro q hq
    exact List.mem_cons.mp (hperm.symm.subset hq)
  have hrel : ∀ q ∈ rest, rankGE best q :=
    (List.sorted_cons.mp hsorted).1
  refine ⟨best, rest, hbr, ?_, ?_, ?_, hsorted, hperm⟩
  · unfold get_optimal_path
    rw [hbr]
  · intro q hq
    rcases hmem q hq with rfl | hq2
    · exact le_refl _
    · rcases hrel q hq2 with h | ⟨h, _⟩
      · exact h.le
      · exact h.ge
  · intro q hq heq
    rcases hmem q hq with rfl | hq2
    · exact le_refl _
    · rcases hrel q hq2 with h | ⟨_, h2⟩
      · exact absurd (heq ▸ h) (lt_irrefl _)
      · exact h2

/-! ## Claim C9 -/

/-- The catalog is nonempty, so `get_optimal_path` always returns a
recommendation. -/
theorem get_optimal_path_isSome (pair : String) (amount confidence : ℚ) :
    ∃ r, get_optimal_path pair amount confidence = some r := by
  have hperm : (rankedPaths pair amount confidence).Perm
      (scoredPaths pair amount confidence) :=
    List.perm_insertionSort rankGE _
  have hlen : (rankedPaths pair amount confidence).length = 6 := by
    rw [hperm.length_eq]
    simp [scoredPaths, settlementPaths]
  cases hr : rankedPaths pair amount confidence with
  | nil => rw [hr] at hlen; simp at hlen
  | cons b r => exact ⟨_, by unfold get_optimal_path; rw [hr]⟩

/-- C9 counterexample: the predictor entry point does **not** reject
invalid input — with a negative amount (−5) and an out-of-range confidence
threshold (2) it still computes and returns a quote — and the optimizer
entry point does not reject a malformed pair string (`"not-a-pair"`),
which is scored as type `other` and yields a recommendation. -/
theorem c9_counterexample :
    (∃ d, predictorMain "SOL/USDT" (-5) 2 100 none = Except.ok d) ∧
    (∃ r, optimizerMain "not-a-pair" 1000 (9/10) = Except.ok r) := by
  constructor
  · have hq : modelQuality (mapWrapped "SOL/USDT") ≤ 1/2 := by
      have hm : mapWrapped "SOL/USDT" = "SOL/USDT" := by decide
      rw [hm]
      simp only [modelQuality, List.lookup,
        show ("SOL/USDT" == "BTC/USDT") = false from by decide,
        show ("SOL/USDT" == "ETH/USDT") = false from by decide]
      norm_num
    refine ⟨lowQualityPrediction "SOL/USDT" 100 none 2, ?_⟩
    unfold predictorMain predict_30s
    rw [if_neg (by decide), if_neg (by decide), if_neg (not_lt.mpr hq)]
  · obtain ⟨r, hr⟩ := get_optimal_path_isSome "not-a-pair" 1000 (9/10)
    refine ⟨r, ?_⟩
    unfold optimizerMain
    rw [if_neg (by norm_num : ¬ (1000:ℚ) ≤ 0),
      if_neg (not_not_intro ⟨by norm_num, by norm_num⟩), hr]

/-- C9 as amended: only the path-optimizer entry point validates input —
it rejects non-positive amounts and out-of-range confidences synchronously
with a descriptive error, and otherwise always produces a recommendation
(malformed pair strings are not rejected but scored as type `other`).  The
predictor entry point performs no validation at all and returns a quote
for arbitrary amounts and thresholds (shown here on the stablecoin
branch). -/
theorem c9_validation_by_entry_point (pair : String)
    (amount confidence threshold latest : ℚ) (oracle : OracleOutcome) :
    (amount ≤ 0 →
      optimizerMain pair amount confidence =
        Except.error "Invalid amount, must be > 0") ∧
    (0 < amount → ¬ (0 ≤ confidence ∧ confidence ≤ 1) →
      optimizerMain pair amount confidence =
        Except.error "Invalid confidence, must be between 0 and 1") ∧
    (0 < amount → 0 ≤ confidence → confidence ≤ 1 →
      ∃ r, optimizerMain pair amount confidence = Except.ok r) ∧
    (mapWrapped pair ∈ stablePairsP →
      ∃ d, predictorMain pair amount threshold latest oracle =
        Except.ok d) := by
  refine ⟨?_, ?_, ?_, ?_⟩
  · intro h
    unfold optimizerMain
    rw [if_pos h]
  · intro h1 h2
    unfold optimizerMain
    rw [if_neg (not_le.mpr h1), if_pos h2]
  · intro h1 h2 h3
    obtain ⟨r, hr⟩ := get_optimal_path_isSome pair amount confidence
    refine ⟨r, ?_⟩
    unfold optimizerMain
    rw [if_neg (not_le.mpr h1), if_neg (not_not_intro ⟨h2, h3⟩), hr]
  · intro hs
    refine ⟨stableCoinResponse pair, ?_⟩
    unfold predictorMain predict_30s
    rw [if_pos hs]

/-- Witness for C9 (amended) at a concrete input: amount −1 is rejected by
the optimizer entry point but accepted by the predictor entry point (which
also accepts the out-of-range threshold 2). -/
theorem c9_witness :
    optimizerMain "USDC/USDT" (-1) (1/2) =
      Except.error "Invalid amount, must be > 0" ∧
    ∃ d, predictorMain "USDC/USDT" (-1) 2 1 none = Except.ok d := by
  have h := c9_validation_by_entry_point "USDC/USDT" (-1) (1/2) 2 1 none
  exact ⟨h.1 (by norm_num), h.2.2.2 (by decide)⟩

end AetherPay
